import Mathlib

/-!
Shallow embedding of the startup sequencer of the release-service operator
(main.go) together with the webhook list of the webhooks package.

The entry point is a linear sequence of calls to external collaborators
(discovery, workspace locator, manager constructors, controller / webhook /
probe registration, the blocking run loop).  Each collaborator's outcome is an
input, collected in `World`.  Running `main` produces an event trace, an exit
code (0 = the Go function returned normally, 1 = `os.Exit(1)`), the final
process environment and the constructed manager, mirroring the source control
flow statement by statement.
-/

namespace ReleaseService

/-- Connection parameters for a cluster endpoint (`*rest.Config`).  We track
the host URL, the one field main.go reads (`cfg.Host`, line 100). -/
structure RestConfig where
  host : String
deriving DecidableEq, Repr

/-- Command-line flags bound in main.go lines 66-71. -/
structure Flags where
  apiExportName : String
  metricsAddr : String
  probeAddr : String
  enableLeaderElection : Bool
deriving DecidableEq, Repr

/-- The `ctrl.Options` bundle filled in at main.go lines 84-92. -/
structure ManagerOptions where
  scheme : String
  metricsBindAddress : String
  port : Nat
  healthProbeBindAddress : String
  leaderElection : Bool
  leaderElectionID : String
  leaderElectionConfig : RestConfig
deriving DecidableEq, Repr

/-- Opaque name for the runtime scheme assembled by `init()` (main.go lines
50-57): client-go, appstudio v1alpha1, appstudio-shared, application-service
and tekton types are added to one shared scheme. -/
def schemeName : String := "clientgo+appstudio+appstudioshared+has+tekton"

/-- The options value built once at main.go lines 84-92, before the topology
branch. -/
def mkOptions (flags : Flags) (restConfig : RestConfig) : ManagerOptions :=
  { scheme := schemeName
    metricsBindAddress := flags.metricsAddr
    port := 9443
    healthProbeBindAddress := flags.probeAddr
    leaderElection := flags.enableLeaderElection
    leaderElectionID := "f3d4c01a.redhat.com"
    leaderElectionConfig := restConfig }

/-- Process environment.  `none` models a variable that is unset. -/
abbrev Env : Type := String → Option String

/-- Go `os.Getenv`: returns the empty string when the variable is unset. -/
def getenv (env : Env) (k : String) : String := (env k).getD ""

/-- Go `os.Setenv` (the successful case). -/
def setenv (env : Env) (k v : String) : Env :=
  fun x => if x = k then some v else env x

/-- The Default-Environment Applier for one key (main.go lines 118-124 and
127-133, error handling aside): if `os.Getenv(k)` is empty, set `k` to the
fallback `v`; otherwise leave the environment untouched. -/
def applyDefault (env : Env) (k v : String) : Env :=
  if getenv env k = "" then setenv env k v else env

/-- The constructed manager: either the kcp cluster-aware variant built from
the resolved virtual-workspace config (`nil` when resolution failed, hence
`Option`), or the standard manager built from the base config. -/
inductive Manager where
  | clusterAware (cfg : Option RestConfig) (opts : ManagerOptions)
  | standard (cfg : RestConfig) (opts : ManagerOptions)
deriving DecidableEq, Repr

/-- The options a manager was constructed with. -/
def Manager.opts : Manager → ManagerOptions
  | .clusterAware _ o => o
  | .standard _ o => o

/-- Observable events of one run of `main`.  `exit c` is an `os.Exit(c)`
call; `crash` is an unrecovered Go runtime panic (nil-pointer dereference),
which also terminates the process, with exit status 2. -/
inductive Event where
  | detectKcp (present : Bool)
  | invokeLocator (exportName : String)
  | buildClusterAwareManager
  | buildStandardManager
  | setDefault (k v : String)
  | registerControllers
  | registerWebhook (name : String)
  | registerHealthz
  | registerReadyz
  | startManager
  | logError (msg : String)
  | exit (code : Nat)
  | crash
deriving DecidableEq, Repr

/-- Registration events: controller, webhook, and probe registration. -/
def Event.isRegistration : Event → Bool
  | .registerControllers => true
  | .registerWebhook _ => true
  | .registerHealthz => true
  | .registerReadyz => true
  | _ => false

/-- Outcomes of the external collaborators called by `main`.
`locatorResult` stands for `kcpUtils.GetRestConfigForApiExport`, whose body
lives in the kcp package; modelled from the spec: it either resolves the
named API export to a virtual-workspace config or surfaces an error (query
error, missing export, empty name, missing URL). -/
structure World where
  kcpPresent : Bool
  locatorResult : Except String RestConfig
  clusterAwareMgrErr : Option String
  standardMgrErr : Option String
  setenvErr : String → Option String
  setupControllersErr : Option String
  releaseWebhookErr : Option String
  releasePlanAdmissionWebhookErr : Option String
  releasePlanWebhookErr : Option String
  healthzErr : Option String
  readyzErr : Option String
  startErr : Option String

/-- The observable result of one run of `main`. -/
structure RunResult where
  trace : List Event
  exitCode : Nat
  env : Env
  mgr : Option Manager

/-- main.go lines 171-175: `mgr.Start(ctx)`; on error, log and `os.Exit(1)`;
on a clean return, `main` returns (process exit status 0). -/
def runStage (mgr : Manager) (env : Env) (w : World) (tr : List Event) : RunResult :=
  match w.startErr with
  | some e => ⟨tr ++ [Event.startManager, Event.logError e, Event.exit 1], 1, env, some mgr⟩
  | none => ⟨tr ++ [Event.startManager], 0, env, some mgr⟩

/-- main.go lines 162-169: `AddHealthzCheck` then `AddReadyzCheck`, each
followed by log-and-exit on error. -/
def probesStage (mgr : Manager) (env : Env) (w : World) (tr : List Event) : RunResult :=
  match w.healthzErr with
  | some e => ⟨tr ++ [Event.registerHealthz, Event.logError e, Event.exit 1], 1, env, some mgr⟩
  | none =>
    match w.readyzErr with
    | some e => ⟨tr ++ [Event.registerHealthz, Event.registerReadyz, Event.logError e, Event.exit 1], 1, env, some mgr⟩
    | none => runStage mgr env w (tr ++ [Event.registerHealthz, Event.registerReadyz])

/-- main.go lines 141-158: when `ENABLE_WEBHOOKS` is not the literal
`"false"`, register the Release, ReleasePlanAdmission and ReleasePlan
webhooks in that order, each followed by log-and-exit on error; otherwise
fall through to the probe registrations. -/
def webhooksStage (mgr : Manager) (env : Env) (w : World) (tr : List Event) : RunResult :=
  if getenv env "ENABLE_WEBHOOKS" ≠ "false" then
    match w.releaseWebhookErr with
    | some e => ⟨tr ++ [Event.registerWebhook "Release", Event.logError e, Event.exit 1], 1, env, some mgr⟩
    | none =>
      match w.releasePlanAdmissionWebhookErr with
      | some e => ⟨tr ++ [Event.registerWebhook "Release", Event.registerWebhook "ReleasePlanAdmission", Event.logError e, Event.exit 1], 1, env, some mgr⟩
      | none =>
        match w.releasePlanWebhookErr with
        | some e => ⟨tr ++ [Event.registerWebhook "Release", Event.registerWebhook "ReleasePlanAdmission", Event.registerWebhook "ReleasePlan", Event.logError e, Event.exit 1], 1, env, some mgr⟩
        | none => probesStage mgr env w (tr ++ [Event.registerWebhook "Release", Event.registerWebhook "ReleasePlanAdmission", Event.registerWebhook "ReleasePlan"])
  else
    probesStage mgr env w tr

/-- main.go lines 135-139: `controllers.SetupControllers(mgr)`, log-and-exit
on error. -/
def controllersStage (mgr : Manager) (env : Env) (w : World) (tr : List Event) : RunResult :=
  match w.setupControllersErr with
  | some e => ⟨tr ++ [Event.registerControllers, Event.logError e, Event.exit 1], 1, env, some mgr⟩
  | none => webhooksStage mgr env w (tr ++ [Event.registerControllers])

/-- main.go lines 127-133: default `DEFAULT_RELEASE_WORKSPACE_NAME` to
`"release-workspace"` when `os.Getenv` returns the empty string; a `Setenv`
error is fatal. -/
def workspaceDefaultStage (env : Env) (w : World) (mgr : Manager) (tr : List Event) : RunResult :=
  if getenv env "DEFAULT_RELEASE_WORKSPACE_NAME" = "" then
    match w.setenvErr "DEFAULT_RELEASE_WORKSPACE_NAME" with
    | some e => ⟨tr ++ [Event.logError e, Event.exit 1], 1, env, some mgr⟩
    | none =>
      controllersStage mgr (setenv env "DEFAULT_RELEASE_WORKSPACE_NAME" "release-workspace") w
        (tr ++ [Event.setDefault "DEFAULT_RELEASE_WORKSPACE_NAME" "release-workspace"])
  else controllersStage mgr env w tr

/-- main.go lines 118-124 then 127-133: default `DEFAULT_RELEASE_PVC` to
`"release-pvc"` when `os.Getenv` returns the empty string (fatal on `Setenv`
error), then apply the workspace-name default. -/
def defaultsStage (env : Env) (w : World) (mgr : Manager) (tr : List Event) : RunResult :=
  if getenv env "DEFAULT_RELEASE_PVC" = "" then
    match w.setenvErr "DEFAULT_RELEASE_PVC" with
    | some e => ⟨tr ++ [Event.logError e, Event.exit 1], 1, env, some mgr⟩
    | none =>
      workspaceDefaultStage (setenv env "DEFAULT_RELEASE_PVC" "release-pvc") w mgr
        (tr ++ [Event.setDefault "DEFAULT_RELEASE_PVC" "release-pvc"])
  else workspaceDefaultStage env w mgr tr

/-- main.go lines 59-176, from the topology branch on.  On a locator error,
lines 96-98 only log the error (there is no `os.Exit` there) and execution
falls through to line 100, `setupLog.Info("Using virtual workspace URL",
"url", cfg.Host)`: no config is returned on a resolution failure, so `cfg`
is a nil `*rest.Config`, the field read panics, and the Go runtime
terminates the process with exit status 2 — before the
`kcp.NewClusterAwareManager(cfg, options)` call of line 103 is reached. -/
def runMain (flags : Flags) (restConfig : RestConfig) (env0 : Env) (w : World) : RunResult :=
  let options := mkOptions flags restConfig
  if w.kcpPresent then
    match w.locatorResult with
    | .error e =>
      ⟨[Event.detectKcp true, Event.invokeLocator flags.apiExportName, Event.logError e,
        Event.crash], 2, env0, none⟩
    | .ok cfg =>
      let options2 := { options with leaderElectionConfig := restConfig }
      match w.clusterAwareMgrErr with
      | some e2 =>
        ⟨[Event.detectKcp true, Event.invokeLocator flags.apiExportName,
          Event.buildClusterAwareManager, Event.logError e2, Event.exit 1], 1, env0, none⟩
      | none =>
        defaultsStage env0 w (Manager.clusterAware (some cfg) options2)
          [Event.detectKcp true, Event.invokeLocator flags.apiExportName,
           Event.buildClusterAwareManager]
  else
    match w.standardMgrErr with
    | some e =>
      ⟨[Event.detectKcp false, Event.buildStandardManager, Event.logError e, Event.exit 1],
       1, env0, none⟩
    | none =>
      defaultsStage env0 w (Manager.standard restConfig options)
        [Event.detectKcp false, Event.buildStandardManager]

/-- The `EnabledWebhooks` list of the webhooks package: the fixed registration
order used by the operator-toolkit based variant of the entry point. -/
def EnabledWebhooks : List String :=
  ["author", "release", "releaseplan", "releaseplanadmission"]

/-! Basic environment lemmas. -/

theorem getenv_setenv_self (env : Env) (k v : String) :
    getenv (setenv env k v) k = v := by
  simp [getenv, setenv]

theorem getenv_setenv_ne (env : Env) (k k' v : String) (h : k' ≠ k) :
    getenv (setenv env k v) k' = getenv env k' := by
  simp [getenv, setenv, h]

theorem setenv_setenv_self (env : Env) (k v v' : String) :
    setenv (setenv env k v) k v' = setenv env k v' := by
  funext x
  by_cases hx : x = k <;> simp [setenv, hx]

/-! Each stage leaves the constructed manager unchanged. -/

theorem runStage_mgr (mgr : Manager) (env : Env) (w : World) (tr : List Event) :
    (runStage mgr env w tr).mgr = some mgr := by
  unfold runStage
  cases w.startErr <;> rfl

theorem probesStage_mgr (mgr : Manager) (env : Env) (w : World) (tr : List Event) :
    (probesStage mgr env w tr).mgr = some mgr := by
  unfold probesStage
  cases w.healthzErr with
  | some e => rfl
  | none =>
    cases w.readyzErr with
    | some e => rfl
    | none => exact runStage_mgr ..

theorem webhooksStage_mgr (mgr : Manager) (env : Env) (w : World) (tr : List Event) :
    (webhooksStage mgr env w tr).mgr = some mgr := by
  unfold webhooksStage
  split
  · cases w.releaseWebhookErr with
    | some e => rfl
    | none =>
      cases w.releasePlanAdmissionWebhookErr with
      | some e => rfl
      | none =>
        cases w.releasePlanWebhookErr with
        | some e => rfl
        | none => exact probesStage_mgr ..
  · exact probesStage_mgr ..

theorem controllersStage_mgr (mgr : Manager) (env : Env) (w : World) (tr : List Event) :
    (controllersStage mgr env w tr).mgr = some mgr := by
  unfold controllersStage
  cases w.setupControllersErr with
  | some e => rfl
  | none => exact webhooksStage_mgr ..

theorem workspaceDefaultStage_mgr (env : Env) (w : World) (mgr : Manager) (tr : List Event) :
    (workspaceDefaultStage env w mgr tr).mgr = some mgr := by
  unfold workspaceDefaultStage
  split
  · cases w.setenvErr "DEFAULT_RELEASE_WORKSPACE_NAME" with
    | some e => rfl
    | none => exact controllersStage_mgr ..
  · exact controllersStage_mgr ..

theorem defaultsStage_mgr (env : Env) (w : World) (mgr : Manager) (tr : List Event) :
    (defaultsStage env w mgr tr).mgr = some mgr := by
  unfold defaultsStage
  split
  · cases w.setenvErr "DEFAULT_RELEASE_PVC" with
    | some e => rfl
    | none => exact workspaceDefaultStage_mgr ..
  · exact workspaceDefaultStage_mgr ..

/-! The environment is not modified after the defaults stage. -/

theorem runStage_env (mgr : Manager) (env : Env) (w : World) (tr : List Event) :
    (runStage mgr env w tr).env = env := by
  unfold runStage
  cases w.startErr <;> rfl

theorem probesStage_env (mgr : Manager) (env : Env) (w : World) (tr : List Event) :
    (probesStage mgr env w tr).env = env := by
  unfold probesStage
  cases w.healthzErr with
  | some e => rfl
  | none =>
    cases w.readyzErr with
    | some e => rfl
    | none => exact runStage_env ..

theorem webhooksStage_env (mgr : Manager) (env : Env) (w : World) (tr : List Event) :
    (webhooksStage mgr env w tr).env = env := by
  unfold webhooksStage
  split
  · cases w.releaseWebhookErr with
    | some e => rfl
    | none =>
      cases w.releasePlanAdmissionWebhookErr with
      | some e => rfl
      | none =>
        cases w.releasePlanWebhookErr with
        | some e => rfl
        | none => exact probesStage_env ..
  · exact probesStage_env ..

theorem controllersStage_env (mgr : Manager) (env : Env) (w : World) (tr : List Event) :
    (controllersStage mgr env w tr).env = env := by
  unfold controllersStage
  cases w.setupControllersErr with
  | some e => rfl
  | none => exact webhooksStage_env ..

theorem workspaceDefaultStage_env (env : Env) (w : World) (mgr : Manager) (tr : List Event)
    (h : w.setenvErr "DEFAULT_RELEASE_WORKSPACE_NAME" = none) :
    (workspaceDefaultStage env w mgr tr).env
      = applyDefault env "DEFAULT_RELEASE_WORKSPACE_NAME" "release-workspace" := by
  unfold workspaceDefaultStage
  split
  · rename_i hc
    rw [h]
    simp only [applyDefault, hc, if_pos]
    exact controllersStage_env ..
  · rename_i hc
    simp only [applyDefault, hc, if_neg, if_false]
    exact controllersStage_env ..

theorem defaultsStage_env (env : Env) (w : World) (mgr : Manager) (tr : List Event)
    (hp : w.setenvErr "DEFAULT_RELEASE_PVC" = none)
    (hw : w.setenvErr "DEFAULT_RELEASE_WORKSPACE_NAME" = none) :
    (defaultsStage env w mgr tr).env
      = applyDefault (applyDefault env "DEFAULT_RELEASE_PVC" "release-pvc")
          "DEFAULT_RELEASE_WORKSPACE_NAME" "release-workspace" := by
  unfold defaultsStage
  split
  · rename_i hc
    rw [hp]
    rw [workspaceDefaultStage_env _ _ _ _ hw]
    simp only [applyDefault, hc, if_pos]
  · rename_i hc
    rw [workspaceDefaultStage_env _ _ _ _ hw]
    simp only [applyDefault, hc, if_neg, if_false]

/-! No stage after manager construction invokes the Workspace Locator. -/

theorem runStage_mem_locator (mgr : Manager) (env : Env) (w : World) (tr : List Event)
    (n : String) (h : Event.invokeLocator n ∈ (runStage mgr env w tr).trace) :
    Event.invokeLocator n ∈ tr := by
  unfold runStage at h
  cases hs : w.startErr <;> rw [hs] at h <;> simp_all

theorem probesStage_mem_locator (mgr : Manager) (env : Env) (w : World) (tr : List Event)
    (n : String) (h : Event.invokeLocator n ∈ (probesStage mgr env w tr).trace) :
    Event.invokeLocator n ∈ tr := by
  unfold probesStage at h
  cases hh : w.healthzErr <;> rw [hh] at h
  · cases hr : w.readyzErr <;> rw [hr] at h
    · have := runStage_mem_locator _ _ _ _ _ h
      simp_all
    · simp_all
  · simp_all

theorem webhooksStage_mem_locator (mgr : Manager) (env : Env) (w : World) (tr : List Event)
    (n : String) (h : Event.invokeLocator n ∈ (webhooksStage mgr env w tr).trace) :
    Event.invokeLocator n ∈ tr := by
  unfold webhooksStage at h
  split at h
  · cases h1 : w.releaseWebhookErr <;> rw [h1] at h
    · cases h2 : w.releasePlanAdmissionWebhookErr <;> rw [h2] at h
      · cases h3 : w.releasePlanWebhookErr <;> rw [h3] at h
        · have := probesStage_mem_locator _ _ _ _ _ h
          simp_all
        · simp_all
      · simp_all
    · simp_all
  · exact probesStage_mem_locator _ _ _ _ _ h

theorem controllersStage_mem_locator (mgr : Manager) (env : Env) (w : World) (tr : List Event)
    (n : String) (h : Event.invokeLocator n ∈ (controllersStage mgr env w tr).trace) :
    Event.invokeLocator n ∈ tr := by
  unfold controllersStage at h
  cases hc : w.setupControllersErr <;> rw [hc] at h
  · have := webhooksStage_mem_locator _ _ _ _ _ h
    simp_all
  · simp_all

theorem workspaceDefaultStage_mem_locator (env : Env) (w : World) (mgr : Manager)
    (tr : List Event) (n : String)
    (h : Event.invokeLocator n ∈ (workspaceDefaultStage env w mgr tr).trace) :
    Event.invokeLocator n ∈ tr := by
  unfold workspaceDefaultStage at h
  split at h
  · cases hs : w.setenvErr "DEFAULT_RELEASE_WORKSPACE_NAME" <;> rw [hs] at h
    · have := controllersStage_mem_locator _ _ _ _ _ h
      simp_all
    · simp_all
  · exact controllersStage_mem_locator _ _ _ _ _ h

theorem defaultsStage_mem_locator (env : Env) (w : World) (mgr : Manager)
    (tr : List Event) (n : String)
    (h : Event.invokeLocator n ∈ (defaultsStage env w mgr tr).trace) :
    Event.invokeLocator n ∈ tr := by
  unfold defaultsStage at h
  split at h
  · cases hs : w.setenvErr "DEFAULT_RELEASE_PVC" <;> rw [hs] at h
    · have := workspaceDefaultStage_mem_locator _ _ _ _ _ h
      simp_all
    · simp_all
  · exact workspaceDefaultStage_mem_locator _ _ _ _ _ h

/-! The probe and run stages register no webhook. -/

theorem runStage_mem_webhook (mgr : Manager) (env : Env) (w : World) (tr : List Event)
    (n : String) (h : Event.registerWebhook n ∈ (runStage mgr env w tr).trace) :
    Event.registerWebhook n ∈ tr := by
  unfold runStage at h
  cases hs : w.startErr <;> rw [hs] at h <;> simp_all

theorem probesStage_mem_webhook (mgr : Manager) (env : Env) (w : World) (tr : List Event)
    (n : String) (h : Event.registerWebhook n ∈ (probesStage mgr env w tr).trace) :
    Event.registerWebhook n ∈ tr := by
  unfold probesStage at h
  cases hh : w.healthzErr <;> rw [hh] at h
  · cases hr : w.readyzErr <;> rw [hr] at h
    · have := runStage_mem_webhook _ _ _ _ _ h
      simp_all
    · simp_all
  · simp_all

/-! The webhook fall-through never reaches the probes on a failure. -/

theorem runStage_mem_healthz (mgr : Manager) (env : Env) (w : World) (tr : List Event)
    (h : Event.registerHealthz ∈ (runStage mgr env w tr).trace) :
    Event.registerHealthz ∈ tr := by
  unfold runStage at h
  cases hs : w.startErr <;> rw [hs] at h <;> simp_all

/-! Case equations for each stage, used to drive all later case analyses. -/

theorem runStage_fail (mgr : Manager) (env : Env) (w : World) (tr : List Event) (e : String)
    (hs : w.startErr = some e) :
    runStage mgr env w tr
      = ⟨tr ++ [Event.startManager, Event.logError e, Event.exit 1], 1, env, some mgr⟩ := by
  unfold runStage
  rw [hs]

theorem runStage_ok (mgr : Manager) (env : Env) (w : World) (tr : List Event)
    (hs : w.startErr = none) :
    runStage mgr env w tr = ⟨tr ++ [Event.startManager], 0, env, some mgr⟩ := by
  unfold runStage
  rw [hs]

theorem probesStage_healthz_fail (mgr : Manager) (env : Env) (w : World) (tr : List Event)
    (e : String) (hh : w.healthzErr = some e) :
    probesStage mgr env w tr
      = ⟨tr ++ [Event.registerHealthz, Event.logError e, Event.exit 1], 1, env, some mgr⟩ := by
  unfold probesStage
  rw [hh]

theorem probesStage_readyz_fail (mgr : Manager) (env : Env) (w : World) (tr : List Event)
    (e : String) (hh : w.healthzErr = none) (hr : w.readyzErr = some e) :
    probesStage mgr env w tr
      = ⟨tr ++ [Event.registerHealthz, Event.registerReadyz, Event.logError e, Event.exit 1],
         1, env, some mgr⟩ := by
  unfold probesStage
  rw [hh, hr]

theorem probesStage_ok (mgr : Manager) (env : Env) (w : World) (tr : List Event)
    (hh : w.healthzErr = none) (hr : w.readyzErr = none) :
    probesStage mgr env w tr
      = runStage mgr env w (tr ++ [Event.registerHealthz, Event.registerReadyz]) := by
  unfold probesStage
  rw [hh, hr]

theorem webhooksStage_disabled (mgr : Manager) (env : Env) (w : World) (tr : List Event)
    (hc : getenv env "ENABLE_WEBHOOKS" = "false") :
    webhooksStage mgr env w tr = probesStage mgr env w tr := by
  unfold webhooksStage
  rw [if_neg (not_not_intro hc)]

theorem webhooksStage_release_fail (mgr : Manager) (env : Env) (w : World) (tr : List Event)
    (e : String) (hc : getenv env "ENABLE_WEBHOOKS" ≠ "false")
    (h1 : w.releaseWebhookErr = some e) :
    webhooksStage mgr env w tr
      = ⟨tr ++ [Event.registerWebhook "Release", Event.logError e, Event.exit 1],
         1, env, some mgr⟩ := by
  unfold webhooksStage
  rw [if_pos hc, h1]

theorem webhooksStage_rpa_fail (mgr : Manager) (env : Env) (w : World) (tr : List Event)
    (e : String) (hc : getenv env "ENABLE_WEBHOOKS" ≠ "false")
    (h1 : w.releaseWebhookErr = none) (h2 : w.releasePlanAdmissionWebhookErr = some e) :
    webhooksStage mgr env w tr
      = ⟨tr ++ [Event.registerWebhook "Release", Event.registerWebhook "ReleasePlanAdmission",
                Event.logError e, Event.exit 1], 1, env, some mgr⟩ := by
  unfold webhooksStage
  rw [if_pos hc, h1, h2]

theorem webhooksStage_rp_fail (mgr : Manager) (env : Env) (w : World) (tr : List Event)
    (e : String) (hc : getenv env "ENABLE_WEBHOOKS" ≠ "false")
    (h1 : w.releaseWebhookErr = none) (h2 : w.releasePlanAdmissionWebhookErr = none)
    (h3 : w.releasePlanWebhookErr = some e) :
    webhooksStage mgr env w tr
      = ⟨tr ++ [Event.registerWebhook "Release", Event.registerWebhook "ReleasePlanAdmission",
                Event.registerWebhook "ReleasePlan", Event.logError e, Event.exit 1],
         1, env, some mgr⟩ := by
  unfold webhooksStage
  rw [if_pos hc, h1, h2, h3]

theorem webhooksStage_ok (mgr : Manager) (env : Env) (w : World) (tr : List Event)
    (hc : getenv env "ENABLE_WEBHOOKS" ≠ "false")
    (h1 : w.releaseWebhookErr = none) (h2 : w.releasePlanAdmissionWebhookErr = none)
    (h3 : w.releasePlanWebhookErr = none) :
    webhooksStage mgr env w tr
      = probesStage mgr env w
          (tr ++ [Event.registerWebhook "Release", Event.registerWebhook "ReleasePlanAdmission",
                  Event.registerWebhook "ReleasePlan"]) := by
  unfold webhooksStage
  rw [if_pos hc, h1, h2, h3]

theorem controllersStage_fail (mgr : Manager) (env : Env) (w : World) (tr : List Event)
    (e : String) (hc : w.setupControllersErr = some e) :
    controllersStage mgr env w tr
      = ⟨tr ++ [Event.registerControllers, Event.logError e, Event.exit 1], 1, env, some mgr⟩ := by
  unfold controllersStage
  rw [hc]

theorem controllersStage_ok (mgr : Manager) (env : Env) (w : World) (tr : List Event)
    (hc : w.setupControllersErr = none) :
    controllersStage mgr env w tr
      = webhooksStage mgr env w (tr ++ [Event.registerControllers]) := by
  unfold controllersStage
  rw [hc]

theorem workspaceDefaultStage_set_fail (env : Env) (w : World) (mgr : Manager) (tr : List Event)
    (e : String) (hc : getenv env "DEFAULT_RELEASE_WORKSPACE_NAME" = "")
    (hs : w.setenvErr "DEFAULT_RELEASE_WORKSPACE_NAME" = some e) :
    workspaceDefaultStage env w mgr tr
      = ⟨tr ++ [Event.logError e, Event.exit 1], 1, env, some mgr⟩ := by
  unfold workspaceDefaultStage
  rw [if_pos hc, hs]

theorem workspaceDefaultStage_set_ok (env : Env) (w : World) (mgr : Manager) (tr : List Event)
    (hc : getenv env "DEFAULT_RELEASE_WORKSPACE_NAME" = "")
    (hs : w.setenvErr "DEFAULT_RELEASE_WORKSPACE_NAME" = none) :
    workspaceDefaultStage env w mgr tr
      = controllersStage mgr (setenv env "DEFAULT_RELEASE_WORKSPACE_NAME" "release-workspace") w
          (tr ++ [Event.setDefault "DEFAULT_RELEASE_WORKSPACE_NAME" "release-workspace"]) := by
  unfold workspaceDefaultStage
  rw [if_pos hc, hs]

theorem workspaceDefaultStage_preset (env : Env) (w : World) (mgr : Manager) (tr : List Event)
    (hc : getenv env "DEFAULT_RELEASE_WORKSPACE_NAME" ≠ "") :
    workspaceDefaultStage env w mgr tr = controllersStage mgr env w tr := by
  unfold workspaceDefaultStage
  rw [if_neg hc]

theorem defaultsStage_set_fail (env : Env) (w : World) (mgr : Manager) (tr : List Event)
    (e : String) (hc : getenv env "DEFAULT_RELEASE_PVC" = "")
    (hs : w.setenvErr "DEFAULT_RELEASE_PVC" = some e) :
    defaultsStage env w mgr tr
      = ⟨tr ++ [Event.logError e, Event.exit 1], 1, env, some mgr⟩ := by
  unfold defaultsStage
  rw [if_pos hc, hs]

theorem defaultsStage_set_ok (env : Env) (w : World) (mgr : Manager) (tr : List Event)
    (hc : getenv env "DEFAULT_RELEASE_PVC" = "")
    (hs : w.setenvErr "DEFAULT_RELEASE_PVC" = none) :
    defaultsStage env w mgr tr
      = workspaceDefaultStage (setenv env "DEFAULT_RELEASE_PVC" "release-pvc") w mgr
          (tr ++ [Event.setDefault "DEFAULT_RELEASE_PVC" "release-pvc"]) := by
  unfold defaultsStage
  rw [if_pos hc, hs]

theorem defaultsStage_preset (env : Env) (w : World) (mgr : Manager) (tr : List Event)
    (hc : getenv env "DEFAULT_RELEASE_PVC" ≠ "") :
    defaultsStage env w mgr tr = workspaceDefaultStage env w mgr tr := by
  unfold defaultsStage
  rw [if_neg hc]

/-! Trace shape of a run that reaches the blocking run loop: every
registration happens before `startManager`, in the fixed order controllers →
webhooks (when enabled) → healthz → readyz, and nothing is registered
afterwards. -/

theorem runStage_start_shape (mgr : Manager) (env : Env) (w : World) (tr : List Event) :
    ∃ post, (runStage mgr env w tr).trace = tr ++ [Event.startManager] ++ post
      ∧ ∀ e ∈ post, e.isRegistration = false := by
  cases hs : w.startErr with
  | some e =>
    rw [runStage_fail mgr env w tr e hs]
    refine ⟨[Event.logError e, Event.exit 1], by simp, ?_⟩
    intro x hx
    simp only [List.mem_cons, List.not_mem_nil, or_false] at hx
    rcases hx with hx | hx <;> subst hx <;> rfl
  | none =>
    rw [runStage_ok mgr env w tr hs]
    exact ⟨[], by simp, by simp⟩

theorem probesStage_start_shape (mgr : Manager) (env : Env) (w : World) (tr : List Event)
    (h : Event.startManager ∈ (probesStage mgr env w tr).trace)
    (h0 : Event.startManager ∉ tr) :
    ∃ post, (probesStage mgr env w tr).trace
        = tr ++ [Event.registerHealthz, Event.registerReadyz, Event.startManager] ++ post
      ∧ ∀ e ∈ post, e.isRegistration = false := by
  cases hh : w.healthzErr with
  | some e =>
    rw [probesStage_healthz_fail mgr env w tr e hh] at h
    simp at h
    exact absurd h h0
  | none =>
    cases hr : w.readyzErr with
    | some e =>
      rw [probesStage_readyz_fail mgr env w tr e hh hr] at h
      simp at h
      exact absurd h h0
    | none =>
      rw [probesStage_ok mgr env w tr hh hr]
      obtain ⟨post, heq, hpost⟩ :=
        runStage_start_shape mgr env w (tr ++ [Event.registerHealthz, Event.registerReadyz])
      refine ⟨post, ?_, hpost⟩
      rw [heq]
      simp

theorem webhooksStage_start_shape (mgr : Manager) (env : Env) (w : World) (tr : List Event)
    (h : Event.startManager ∈ (webhooksStage mgr env w tr).trace)
    (h0 : Event.startManager ∉ tr) :
    ∃ whs post, (webhooksStage mgr env w tr).trace
        = tr ++ whs ++ [Event.registerHealthz, Event.registerReadyz, Event.startManager] ++ post
      ∧ (∀ e ∈ post, e.isRegistration = false)
      ∧ ((getenv env "ENABLE_WEBHOOKS" ≠ "false"
            ∧ whs = [Event.registerWebhook "Release", Event.registerWebhook "ReleasePlanAdmission",
                     Event.registerWebhook "ReleasePlan"])
          ∨ (getenv env "ENABLE_WEBHOOKS" = "false" ∧ whs = [])) := by
  by_cases hc : getenv env "ENABLE_WEBHOOKS" = "false"
  · rw [webhooksStage_disabled mgr env w tr hc] at h ⊢
    obtain ⟨post, heq, hpost⟩ := probesStage_start_shape mgr env w tr h h0
    refine ⟨[], post, ?_, hpost, Or.inr ⟨hc, rfl⟩⟩
    rw [heq]
    simp
  · cases h1 : w.releaseWebhookErr with
    | some e =>
      rw [webhooksStage_release_fail mgr env w tr e hc h1] at h
      simp at h
      exact absurd h h0
    | none =>
      cases h2 : w.releasePlanAdmissionWebhookErr with
      | some e =>
        rw [webhooksStage_rpa_fail mgr env w tr e hc h1 h2] at h
        simp at h
        exact absurd h h0
      | none =>
        cases h3 : w.releasePlanWebhookErr with
        | some e =>
          rw [webhooksStage_rp_fail mgr env w tr e hc h1 h2 h3] at h
          simp at h
          exact absurd h h0
        | none =>
          rw [webhooksStage_ok mgr env w tr hc h1 h2 h3] at h ⊢
          have h0' : Event.startManager
              ∉ tr ++ [Event.registerWebhook "Release",
                       Event.registerWebhook "ReleasePlanAdmission",
                       Event.registerWebhook "ReleasePlan"] := by
            simp [h0]
          obtain ⟨post, heq, hpost⟩ := probesStage_start_shape mgr env w _ h h0'
          refine ⟨[Event.registerWebhook "Release", Event.registerWebhook "ReleasePlanAdmission",
                   Event.registerWebhook "ReleasePlan"], post, ?_, hpost, Or.inl ⟨hc, rfl⟩⟩
          rw [heq]

theorem controllersStage_start_shape (mgr : Manager) (env : Env) (w : World) (tr : List Event)
    (h : Event.startManager ∈ (controllersStage mgr env w tr).trace)
    (h0 : Event.startManager ∉ tr) :
    ∃ whs post, (controllersStage mgr env w tr).trace
        = tr ++ [Event.registerControllers] ++ whs
            ++ [Event.registerHealthz, Event.registerReadyz, Event.startManager] ++ post
      ∧ (∀ e ∈ post, e.isRegistration = false)
      ∧ ((getenv env "ENABLE_WEBHOOKS" ≠ "false"
            ∧ whs = [Event.registerWebhook "Release", Event.registerWebhook "ReleasePlanAdmission",
                     Event.registerWebhook "ReleasePlan"])
          ∨ (getenv env "ENABLE_WEBHOOKS" = "false" ∧ whs = [])) := by
  cases hc : w.setupControllersErr with
  | some e =>
    rw [controllersStage_fail mgr env w tr e hc] at h
    simp at h
    exact absurd h h0
  | none =>
    rw [controllersStage_ok mgr env w tr hc] at h ⊢
    have h0' : Event.startManager ∉ tr ++ [Event.registerControllers] := by simp [h0]
    obtain ⟨whs, post, heq, hpost, hd⟩ := webhooksStage_start_shape mgr env w _ h h0'
    refine ⟨whs, post, ?_, hpost, hd⟩
    rw [heq]

theorem workspaceDefaultStage_start_shape (env : Env) (w : World) (mgr : Manager)
    (tr : List Event)
    (h : Event.startManager ∈ (workspaceDefaultStage env w mgr tr).trace)
    (h0 : Event.startManager ∉ tr) :
    ∃ ds whs post, (workspaceDefaultStage env w mgr tr).trace
        = tr ++ ds ++ [Event.registerControllers] ++ whs
            ++ [Event.registerHealthz, Event.registerReadyz, Event.startManager] ++ post
      ∧ (∀ e ∈ ds, e.isRegistration = false ∧ e ≠ Event.startManager)
      ∧ (∀ e ∈ post, e.isRegistration = false)
      ∧ ((getenv env "ENABLE_WEBHOOKS" ≠ "false"
            ∧ whs = [Event.registerWebhook "Release", Event.registerWebhook "ReleasePlanAdmission",
                     Event.registerWebhook "ReleasePlan"])
          ∨ (getenv env "ENABLE_WEBHOOKS" = "false" ∧ whs = [])) := by
  by_cases hc : getenv env "DEFAULT_RELEASE_WORKSPACE_NAME" = ""
  · cases hs : w.setenvErr "DEFAULT_RELEASE_WORKSPACE_NAME" with
    | some e =>
      rw [workspaceDefaultStage_set_fail env w mgr tr e hc hs] at h
      simp at h
      exact absurd h h0
    | none =>
      rw [workspaceDefaultStage_set_ok env w mgr tr hc hs] at h ⊢
      have h0' : Event.startManager
          ∉ tr ++ [Event.setDefault "DEFAULT_RELEASE_WORKSPACE_NAME" "release-workspace"] := by
        simp [h0]
      obtain ⟨whs, post, heq, hpost, hd⟩ := controllersStage_start_shape mgr _ w _ h h0'
      rw [getenv_setenv_ne env _ _ _ (by decide)] at hd
      refine ⟨[Event.setDefault "DEFAULT_RELEASE_WORKSPACE_NAME" "release-workspace"], whs, post,
        ?_, ?_, hpost, hd⟩
      · rw [heq]
      · intro x hx
        simp only [List.mem_cons, List.not_mem_nil, or_false] at hx
        subst hx
        exact ⟨rfl, by decide⟩
  · rw [workspaceDefaultStage_preset env w mgr tr hc] at h ⊢
    obtain ⟨whs, post, heq, hpost, hd⟩ := controllersStage_start_shape mgr env w tr h h0
    exact ⟨[], whs, post, by rw [heq]; simp, by simp, hpost, hd⟩

theorem defaultsStage_start_shape (env : Env) (w : World) (mgr : Manager)
    (tr : List Event)
    (h : Event.startManager ∈ (defaultsStage env w mgr tr).trace)
    (h0 : Event.startManager ∉ tr) :
    ∃ ds whs post, (defaultsStage env w mgr tr).trace
        = tr ++ ds ++ [Event.registerControllers] ++ whs
            ++ [Event.registerHealthz, Event.registerReadyz, Event.startManager] ++ post
      ∧ (∀ e ∈ ds, e.isRegistration = false ∧ e ≠ Event.startManager)
      ∧ (∀ e ∈ post, e.isRegistration = false)
      ∧ ((getenv env "ENABLE_WEBHOOKS" ≠ "false"
            ∧ whs = [Event.registerWebhook "Release", Event.registerWebhook "ReleasePlanAdmission",
                     Event.registerWebhook "ReleasePlan"])
          ∨ (getenv env "ENABLE_WEBHOOKS" = "false" ∧ whs = [])) := by
  by_cases hc : getenv env "DEFAULT_RELEASE_PVC" = ""
  · cases hs : w.setenvErr "DEFAULT_RELEASE_PVC" with
    | some e =>
      rw [defaultsStage_set_fail env w mgr tr e hc hs] at h
      simp at h
      exact absurd h h0
    | none =>
      rw [defaultsStage_set_ok env w mgr tr hc hs] at h ⊢
      have h0' : Event.startManager
          ∉ tr ++ [Event.setDefault "DEFAULT_RELEASE_PVC" "release-pvc"] := by
        simp [h0]
      obtain ⟨ds, whs, post, heq, hds, hpost, hd⟩ :=
        workspaceDefaultStage_start_shape _ w mgr _ h h0'
      rw [getenv_setenv_ne env _ _ _ (by decide)] at hd
      refine ⟨Event.setDefault "DEFAULT_RELEASE_PVC" "release-pvc" :: ds, whs, post,
        ?_, ?_, hpost, hd⟩
      · rw [heq]
        simp
      · intro x hx
        simp only [List.mem_cons] at hx
        rcases hx with hx | hx
        · subst hx
          exact ⟨rfl, by decide⟩
        · exact hds x hx
  · rw [defaultsStage_preset env w mgr tr hc] at h ⊢
    exact workspaceDefaultStage_start_shape env w mgr tr h h0

/-! Exit-code characterization: a stage yields exit code 0 exactly when the
run loop is reached and returns cleanly; any other outcome is exit code 1,
with the originating error logged right before the exit. -/

theorem runStage_code_zero (mgr : Manager) (env : Env) (w : World) (tr : List Event) :
    (runStage mgr env w tr).exitCode = 0
      ↔ (Event.startManager ∈ (runStage mgr env w tr).trace ∧ w.startErr = none) := by
  cases hs : w.startErr with
  | some e =>
    rw [runStage_fail mgr env w tr e hs]
    simp
  | none =>
    rw [runStage_ok mgr env w tr hs]
    simp

theorem probesStage_code_zero (mgr : Manager) (env : Env) (w : World) (tr : List Event)
    (h0 : Event.startManager ∉ tr) :
    (probesStage mgr env w tr).exitCode = 0
      ↔ (Event.startManager ∈ (probesStage mgr env w tr).trace ∧ w.startErr = none) := by
  cases hh : w.healthzErr with
  | some e =>
    rw [probesStage_healthz_fail mgr env w tr e hh]
    simp [h0]
  | none =>
    cases hr : w.readyzErr with
    | some e =>
      rw [probesStage_readyz_fail mgr env w tr e hh hr]
      simp [h0]
    | none =>
      rw [probesStage_ok mgr env w tr hh hr]
      exact runStage_code_zero ..

theorem webhooksStage_code_zero (mgr : Manager) (env : Env) (w : World) (tr : List Event)
    (h0 : Event.startManager ∉ tr) :
    (webhooksStage mgr env w tr).exitCode = 0
      ↔ (Event.startManager ∈ (webhooksStage mgr env w tr).trace ∧ w.startErr = none) := by
  by_cases hc : getenv env "ENABLE_WEBHOOKS" = "false"
  · rw [webhooksStage_disabled mgr env w tr hc]
    exact probesStage_code_zero mgr env w tr h0
  · cases h1 : w.releaseWebhookErr with
    | some e =>
      rw [webhooksStage_release_fail mgr env w tr e hc h1]
      simp [h0]
    | none =>
      cases h2 : w.releasePlanAdmissionWebhookErr with
      | some e =>
        rw [webhooksStage_rpa_fail mgr env w tr e hc h1 h2]
        simp [h0]
      | none =>
        cases h3 : w.releasePlanWebhookErr with
        | some e =>
          rw [webhooksStage_rp_fail mgr env w tr e hc h1 h2 h3]
          simp [h0]
        | none =>
          rw [webhooksStage_ok mgr env w tr hc h1 h2 h3]
          exact probesStage_code_zero mgr env w _ (by simp [h0])

theorem controllersStage_code_zero (mgr : Manager) (env : Env) (w : World) (tr : List Event)
    (h0 : Event.startManager ∉ tr) :
    (controllersStage mgr env w tr).exitCode = 0
      ↔ (Event.startManager ∈ (controllersStage mgr env w tr).trace ∧ w.startErr = none) := by
  cases hc : w.setupControllersErr with
  | some e =>
    rw [controllersStage_fail mgr env w tr e hc]
    simp [h0]
  | none =>
    rw [controllersStage_ok mgr env w tr hc]
    exact webhooksStage_code_zero mgr env w _ (by simp [h0])

theorem workspaceDefaultStage_code_zero (env : Env) (w : World) (mgr : Manager)
    (tr : List Event) (h0 : Event.startManager ∉ tr) :
    (workspaceDefaultStage env w mgr tr).exitCode = 0
      ↔ (Event.startManager ∈ (workspaceDefaultStage env w mgr tr).trace
          ∧ w.startErr = none) := by
  by_cases hc : getenv env "DEFAULT_RELEASE_WORKSPACE_NAME" = ""
  · cases hs : w.setenvErr "DEFAULT_RELEASE_WORKSPACE_NAME" with
    | some e =>
      rw [workspaceDefaultStage_set_fail env w mgr tr e hc hs]
      simp [h0]
    | none =>
      rw [workspaceDefaultStage_set_ok env w mgr tr hc hs]
      exact controllersStage_code_zero mgr _ w _ (by simp [h0])
  · rw [workspaceDefaultStage_preset env w mgr tr hc]
    exact controllersStage_code_zero mgr env w tr h0

theorem defaultsStage_code_zero (env : Env) (w : World) (mgr : Manager)
    (tr : List Event) (h0 : Event.startManager ∉ tr) :
    (defaultsStage env w mgr tr).exitCode = 0
      ↔ (Event.startManager ∈ (defaultsStage env w mgr tr).trace ∧ w.startErr = none) := by
  by_cases hc : getenv env "DEFAULT_RELEASE_PVC" = ""
  · cases hs : w.setenvErr "DEFAULT_RELEASE_PVC" with
    | some e =>
      rw [defaultsStage_set_fail env w mgr tr e hc hs]
      simp [h0]
    | none =>
      rw [defaultsStage_set_ok env w mgr tr hc hs]
      exact workspaceDefaultStage_code_zero _ w mgr _ (by simp [h0])
  · rw [defaultsStage_preset env w mgr tr hc]
    exact workspaceDefaultStage_code_zero env w mgr tr h0

theorem runStage_fatal (mgr : Manager) (env : Env) (w : World) (tr : List Event)
    (h : (runStage mgr env w tr).exitCode ≠ 0) :
    (runStage mgr env w tr).exitCode = 1
      ∧ ∃ pre e, (runStage mgr env w tr).trace = pre ++ [Event.logError e, Event.exit 1] := by
  cases hs : w.startErr with
  | some e =>
    rw [runStage_fail mgr env w tr e hs]
    exact ⟨rfl, tr ++ [Event.startManager], e, by simp⟩
  | none =>
    rw [runStage_ok mgr env w tr hs] at h
    exact absurd rfl h

theorem probesStage_fatal (mgr : Manager) (env : Env) (w : World) (tr : List Event)
    (h : (probesStage mgr env w tr).exitCode ≠ 0) :
    (probesStage mgr env w tr).exitCode = 1
      ∧ ∃ pre e, (probesStage mgr env w tr).trace = pre ++ [Event.logError e, Event.exit 1] := by
  cases hh : w.healthzErr with
  | some e =>
    rw [probesStage_healthz_fail mgr env w tr e hh]
    exact ⟨rfl, tr ++ [Event.registerHealthz], e, by simp⟩
  | none =>
    cases hr : w.readyzErr with
    | some e =>
      rw [probesStage_readyz_fail mgr env w tr e hh hr]
      exact ⟨rfl, tr ++ [Event.registerHealthz, Event.registerReadyz], e, by simp⟩
    | none =>
      rw [probesStage_ok mgr env w tr hh hr] at h ⊢
      exact runStage_fatal mgr env w _ h

theorem webhooksStage_fatal (mgr : Manager) (env : Env) (w : World) (tr : List Event)
    (h : (webhooksStage mgr env w tr).exitCode ≠ 0) :
    (webhooksStage mgr env w tr).exitCode = 1
      ∧ ∃ pre e, (webhooksStage mgr env w tr).trace = pre ++ [Event.logError e, Event.exit 1] := by
  by_cases hc : getenv env "ENABLE_WEBHOOKS" = "false"
  · rw [webhooksStage_disabled mgr env w tr hc] at h ⊢
    exact probesStage_fatal mgr env w tr h
  · cases h1 : w.releaseWebhookErr with
    | some e =>
      rw [webhooksStage_release_fail mgr env w tr e hc h1]
      exact ⟨rfl, tr ++ [Event.registerWebhook "Release"], e, by simp⟩
    | none =>
      cases h2 : w.releasePlanAdmissionWebhookErr with
      | some e =>
        rw [webhooksStage_rpa_fail mgr env w tr e hc h1 h2]
        exact ⟨rfl, tr ++ [Event.registerWebhook "Release",
          Event.registerWebhook "ReleasePlanAdmission"], e, by simp⟩
      | none =>
        cases h3 : w.releasePlanWebhookErr with
        | some e =>
          rw [webhooksStage_rp_fail mgr env w tr e hc h1 h2 h3]
          exact ⟨rfl, tr ++ [Event.registerWebhook "Release",
            Event.registerWebhook "ReleasePlanAdmission",
            Event.registerWebhook "ReleasePlan"], e, by simp⟩
        | none =>
          rw [webhooksStage_ok mgr env w tr hc h1 h2 h3] at h ⊢
          exact probesStage_fatal mgr env w _ h

theorem controllersStage_fatal (mgr : Manager) (env : Env) (w : World) (tr : List Event)
    (h : (controllersStage mgr env w tr).exitCode ≠ 0) :
    (controllersStage mgr env w tr).exitCode = 1
      ∧ ∃ pre e, (controllersStage mgr env w tr).trace
          = pre ++ [Event.logError e, Event.exit 1] := by
  cases hc : w.setupControllersErr with
  | some e =>
    rw [controllersStage_fail mgr env w tr e hc]
    exact ⟨rfl, tr ++ [Event.registerControllers], e, by simp⟩
  | none =>
    rw [controllersStage_ok mgr env w tr hc] at h ⊢
    exact webhooksStage_fatal mgr env w _ h

theorem workspaceDefaultStage_fatal (env : Env) (w : World) (mgr : Manager) (tr : List Event)
    (h : (workspaceDefaultStage env w mgr tr).exitCode ≠ 0) :
    (workspaceDefaultStage env w mgr tr).exitCode = 1
      ∧ ∃ pre e, (workspaceDefaultStage env w mgr tr).trace
          = pre ++ [Event.logError e, Event.exit 1] := by
  by_cases hc : getenv env "DEFAULT_RELEASE_WORKSPACE_NAME" = ""
  · cases hs : w.setenvErr "DEFAULT_RELEASE_WORKSPACE_NAME" with
    | some e =>
      rw [workspaceDefaultStage_set_fail env w mgr tr e hc hs]
      exact ⟨rfl, tr, e, by simp⟩
    | none =>
      rw [workspaceDefaultStage_set_ok env w mgr tr hc hs] at h ⊢
      exact controllersStage_fatal mgr _ w _ h
  · rw [workspaceDefaultStage_preset env w mgr tr hc] at h ⊢
    exact controllersStage_fatal mgr env w tr h

theorem defaultsStage_fatal (env : Env) (w : World) (mgr : Manager) (tr : List Event)
    (h : (defaultsStage env w mgr tr).exitCode ≠ 0) :
    (defaultsStage env w mgr tr).exitCode = 1
      ∧ ∃ pre e, (defaultsStage env w mgr tr).trace
          = pre ++ [Event.logError e, Event.exit 1] := by
  by_cases hc : getenv env "DEFAULT_RELEASE_PVC" = ""
  · cases hs : w.setenvErr "DEFAULT_RELEASE_PVC" with
    | some e =>
      rw [defaultsStage_set_fail env w mgr tr e hc hs]
      exact ⟨rfl, tr, e, by simp⟩
    | none =>
      rw [defaultsStage_set_ok env w mgr tr hc hs] at h ⊢
      exact workspaceDefaultStage_fatal _ w mgr _ h
  · rw [defaultsStage_preset env w mgr tr hc] at h ⊢
    exact workspaceDefaultStage_fatal env w mgr tr h

/-! Case equations for `runMain`. -/

theorem mkOptions_update (flags : Flags) (rc : RestConfig) :
    { mkOptions flags rc with leaderElectionConfig := rc } = mkOptions flags rc := rfl

theorem runMain_kcp_locerr (flags : Flags) (rc : RestConfig) (env0 : Env) (w : World)
    (e : String) (hk : w.kcpPresent = true) (hl : w.locatorResult = Except.error e) :
    runMain flags rc env0 w
      = ⟨[Event.detectKcp true, Event.invokeLocator flags.apiExportName, Event.logError e,
          Event.crash], 2, env0, none⟩ := by
  simp only [runMain, hk, hl, if_true]

theorem runMain_kcp_res_fail (flags : Flags) (rc : RestConfig) (env0 : Env) (w : World)
    (cfg : RestConfig) (e2 : String) (hk : w.kcpPresent = true)
    (hl : w.locatorResult = Except.ok cfg) (hm : w.clusterAwareMgrErr = some e2) :
    runMain flags rc env0 w
      = ⟨[Event.detectKcp true, Event.invokeLocator flags.apiExportName,
          Event.buildClusterAwareManager, Event.logError e2, Event.exit 1], 1, env0, none⟩ := by
  simp only [runMain, hk, hl, hm, if_true]

theorem runMain_kcp_res_ok (flags : Flags) (rc : RestConfig) (env0 : Env) (w : World)
    (cfg : RestConfig) (hk : w.kcpPresent = true) (hl : w.locatorResult = Except.ok cfg)
    (hm : w.clusterAwareMgrErr = none) :
    runMain flags rc env0 w
      = defaultsStage env0 w (Manager.clusterAware (some cfg) (mkOptions flags rc))
          [Event.detectKcp true, Event.invokeLocator flags.apiExportName,
           Event.buildClusterAwareManager] := by
  simp only [runMain, hk, hl, hm, if_true]
  rfl

theorem runMain_standalone_fail (flags : Flags) (rc : RestConfig) (env0 : Env) (w : World)
    (e : String) (hk : w.kcpPresent = false) (hm : w.standardMgrErr = some e) :
    runMain flags rc env0 w
      = ⟨[Event.detectKcp false, Event.buildStandardManager, Event.logError e, Event.exit 1],
         1, env0, none⟩ := by
  simp only [runMain, hk, hm, if_false, Bool.false_eq_true]

theorem runMain_standalone_ok (flags : Flags) (rc : RestConfig) (env0 : Env) (w : World)
    (hk : w.kcpPresent = false) (hm : w.standardMgrErr = none) :
    runMain flags rc env0 w
      = defaultsStage env0 w (Manager.standard rc (mkOptions flags rc))
          [Event.detectKcp false, Event.buildStandardManager] := by
  simp only [runMain, hk, hm, if_false, Bool.false_eq_true]

/-! Small trace facts used by the claim theorems. -/

theorem runStage_trace_append (mgr : Manager) (env : Env) (w : World) (tr : List Event) :
    ∃ suf, (runStage mgr env w tr).trace = tr ++ suf := by
  cases hs : w.startErr with
  | some e => exact ⟨_, by rw [runStage_fail mgr env w tr e hs]⟩
  | none => exact ⟨_, by rw [runStage_ok mgr env w tr hs]⟩

theorem probesStage_trace_append (mgr : Manager) (env : Env) (w : World) (tr : List Event) :
    ∃ suf, (probesStage mgr env w tr).trace = tr ++ suf := by
  cases hh : w.healthzErr with
  | some e => exact ⟨_, by rw [probesStage_healthz_fail mgr env w tr e hh]⟩
  | none =>
    cases hr : w.readyzErr with
    | some e => exact ⟨_, by rw [probesStage_readyz_fail mgr env w tr e hh hr]⟩
    | none =>
      rw [probesStage_ok mgr env w tr hh hr]
      obtain ⟨suf, hsuf⟩ :=
        runStage_trace_append mgr env w (tr ++ [Event.registerHealthz, Event.registerReadyz])
      exact ⟨[Event.registerHealthz, Event.registerReadyz] ++ suf, by rw [hsuf]; simp⟩

theorem probesStage_mem_lift (mgr : Manager) (env : Env) (w : World) (tr : List Event)
    (e : Event) (h : e ∈ tr) : e ∈ (probesStage mgr env w tr).trace := by
  obtain ⟨suf, hsuf⟩ := probesStage_trace_append mgr env w tr
  rw [hsuf]
  exact List.mem_append_left _ h

/-! Reading the environment through the Default-Environment Applier. -/

theorem getenv_applyDefault_ne (env : Env) (k k' v : String) (h : k' ≠ k) :
    getenv (applyDefault env k v) k' = getenv env k' := by
  unfold applyDefault
  split
  · exact getenv_setenv_ne env k k' v h
  · rfl

theorem getenv_applyDefault_self (env : Env) (k v : String) :
    getenv (applyDefault env k v) k
      = if getenv env k = "" then v else getenv env k := by
  unfold applyDefault
  split
  · exact getenv_setenv_self env k v
  · rfl

/-! Concrete fixtures used by the per-claim witnesses. -/

/-- Base cluster connection config. -/
def baseConfig : RestConfig := ⟨"https://base.cluster.example"⟩

/-- A resolved virtual-workspace config. -/
def vwConfig : RestConfig := ⟨"https://vw.example/ws1"⟩

/-- Default flag values (main.go lines 66-71), with a named API export. -/
def stdFlags : Flags := ⟨"export-1", ":8080", ":8081", false⟩

/-- Flags with an empty `--api-export-name`. -/
def noExportFlags : Flags := ⟨"", ":8080", ":8081", false⟩

/-- An environment with every variable unset. -/
def emptyEnv : Env := fun _ => none

/-- A run in which every external collaborator succeeds, against a plain
cluster (multi-tenant API group absent). -/
def okWorld : World :=
  { kcpPresent := false
    locatorResult := Except.ok vwConfig
    clusterAwareMgrErr := none
    standardMgrErr := none
    setenvErr := fun _ => none
    setupControllersErr := none
    releaseWebhookErr := none
    releasePlanAdmissionWebhookErr := none
    releasePlanWebhookErr := none
    healthzErr := none
    readyzErr := none
    startErr := none }

/-- A run in which the multi-tenant API group is present but resolving the
virtual-workspace endpoint fails; everything else succeeds. -/
def locErrWorld : World :=
  { okWorld with
    kcpPresent := true
    locatorResult := Except.error "error looking up virtual workspace URL" }

/-- A run against a plain cluster in which the manager run loop reports an
unrecoverable error. -/
def startErrWorld : World :=
  { okWorld with startErr := some "problem running manager" }

/-- The manager built by `okWorld` runs. -/
def stdManager : Manager := Manager.standard baseConfig (mkOptions stdFlags baseConfig)

/-- An environment in which both default keys are explicitly set to the empty
string. -/
def emptyStrEnv : Env := fun _ => some ""

theorem applyDefault_of_empty (env : Env) (k v : String) (h : getenv env k = "") :
    applyDefault env k v = setenv env k v := by
  unfold applyDefault
  rw [if_pos h]

theorem applyDefault_of_nonempty (env : Env) (k v : String) (h : getenv env k ≠ "") :
    applyDefault env k v = env := by
  unfold applyDefault
  rw [if_neg h]

/-- C1: in every run where the multi-tenant (kcp) API group is present and
resolving the virtual-workspace endpoint fails, the startup terminates with a
non-zero exit before any manager is constructed and never reaches the manager
build: main.go lines 96-98 log the error without exiting, and line 100 then
reads `cfg.Host` through the nil config returned on failure, so the runtime
panics (exit status 2) before `kcp.NewClusterAwareManager` on line 103. -/
theorem c1_resolution_error_fatal_before_build (flags : Flags) (rc : RestConfig) (env0 : Env)
    (w : World) (e : String) (hk : w.kcpPresent = true)
    (hl : w.locatorResult = Except.error e) :
    (runMain flags rc env0 w).exitCode ≠ 0
    ∧ (runMain flags rc env0 w).mgr = none
    ∧ Event.buildClusterAwareManager ∉ (runMain flags rc env0 w).trace
    ∧ Event.startManager ∉ (runMain flags rc env0 w).trace := by
  rw [runMain_kcp_locerr flags rc env0 w e hk hl]
  refine ⟨by simp, rfl, by simp, by simp⟩

/-- C1 witness: the fatal pre-build termination at a concrete failing input
(kcp group present, empty export name, resolution error). -/
theorem c1_witness :
    (runMain noExportFlags baseConfig emptyEnv locErrWorld).exitCode ≠ 0
    ∧ (runMain noExportFlags baseConfig emptyEnv locErrWorld).mgr = none
    ∧ Event.buildClusterAwareManager ∉ (runMain noExportFlags baseConfig emptyEnv locErrWorld).trace
    ∧ Event.startManager ∉ (runMain noExportFlags baseConfig emptyEnv locErrWorld).trace :=
  c1_resolution_error_fatal_before_build noExportFlags baseConfig emptyEnv locErrWorld
    "error looking up virtual workspace URL" rfl rfl

/-- C2: in every run that enters the blocking run loop, controller
registration, then webhook registration (when enabled), then health and
readiness probe registration complete, in that order, before `startManager`,
and no registration event occurs afterwards. -/
theorem c2_registrations_complete_before_run (flags : Flags) (rc : RestConfig) (env0 : Env)
    (w : World) (h : Event.startManager ∈ (runMain flags rc env0 w).trace) :
    ∃ pre whs post, (runMain flags rc env0 w).trace
        = pre ++ [Event.registerControllers] ++ whs
            ++ [Event.registerHealthz, Event.registerReadyz, Event.startManager] ++ post
      ∧ (∀ e ∈ pre, e.isRegistration = false)
      ∧ (∀ e ∈ post, e.isRegistration = false)
      ∧ ((getenv env0 "ENABLE_WEBHOOKS" ≠ "false"
            ∧ whs = [Event.registerWebhook "Release", Event.registerWebhook "ReleasePlanAdmission",
                     Event.registerWebhook "ReleasePlan"])
          ∨ (getenv env0 "ENABLE_WEBHOOKS" = "false" ∧ whs = [])) := by
  have main : ∀ (mgr : Manager) (tr0 : List Event),
      Event.startManager ∉ tr0 → (∀ e ∈ tr0, Event.isRegistration e = false) →
      Event.startManager ∈ (defaultsStage env0 w mgr tr0).trace →
      ∃ pre whs post, (defaultsStage env0 w mgr tr0).trace
          = pre ++ [Event.registerControllers] ++ whs
              ++ [Event.registerHealthz, Event.registerReadyz, Event.startManager] ++ post
        ∧ (∀ e ∈ pre, e.isRegistration = false)
        ∧ (∀ e ∈ post, e.isRegistration = false)
        ∧ ((getenv env0 "ENABLE_WEBHOOKS" ≠ "false"
              ∧ whs = [Event.registerWebhook "Release",
                       Event.registerWebhook "ReleasePlanAdmission",
                       Event.registerWebhook "ReleasePlan"])
            ∨ (getenv env0 "ENABLE_WEBHOOKS" = "false" ∧ whs = [])) := by
    intro mgr tr0 h0 hfree hmem
    obtain ⟨ds, whs, post, heq, hds, hpost, hd⟩ := defaultsStage_start_shape env0 w mgr tr0 hmem h0
    refine ⟨tr0 ++ ds, whs, post, ?_, ?_, hpost, hd⟩
    · rw [heq]
    · intro x hx
      rcases List.mem_append.mp hx with hx | hx
      · exact hfree x hx
      · exact (hds x hx).1
  cases hk : w.kcpPresent with
  | false =>
    cases hm : w.standardMgrErr with
    | some e =>
      rw [runMain_standalone_fail flags rc env0 w e hk hm] at h
      simp at h
    | none =>
      rw [runMain_standalone_ok flags rc env0 w hk hm] at h ⊢
      refine main _ _ (by simp) ?_ h
      intro x hx
      simp only [List.mem_cons, List.not_mem_nil, or_false] at hx
      rcases hx with hx | hx <;> subst hx <;> rfl
  | true =>
    cases hl : w.locatorResult with
    | error e =>
      rw [runMain_kcp_locerr flags rc env0 w e hk hl] at h
      simp at h
    | ok cfg =>
      cases hm : w.clusterAwareMgrErr with
      | some e2 =>
        rw [runMain_kcp_res_fail flags rc env0 w cfg e2 hk hl hm] at h
        simp at h
      | none =>
        rw [runMain_kcp_res_ok flags rc env0 w cfg hk hl hm] at h ⊢
        refine main _ _ (by simp) ?_ h
        intro x hx
        simp only [List.mem_cons, List.not_mem_nil, or_false] at hx
        rcases hx with hx | hx | hx <;> subst hx <;> rfl

/-- C2 witness: the shape holds for a concrete all-successful standalone run. -/
theorem c2_witness :
    ∃ pre whs post, (runMain stdFlags baseConfig emptyEnv okWorld).trace
        = pre ++ [Event.registerControllers] ++ whs
            ++ [Event.registerHealthz, Event.registerReadyz, Event.startManager] ++ post
      ∧ (∀ e ∈ pre, e.isRegistration = false)
      ∧ (∀ e ∈ post, e.isRegistration = false)
      ∧ ((getenv emptyEnv "ENABLE_WEBHOOKS" ≠ "false"
            ∧ whs = [Event.registerWebhook "Release", Event.registerWebhook "ReleasePlanAdmission",
                     Event.registerWebhook "ReleasePlan"])
          ∨ (getenv emptyEnv "ENABLE_WEBHOOKS" = "false" ∧ whs = [])) :=
  c2_registrations_complete_before_run stdFlags baseConfig emptyEnv okWorld (by decide)

/-- C3: whichever topology branch constructed the manager, its options are
exactly the single options value built before the branch: the fixed
leader-election identity `f3d4c01a.redhat.com`, the base cluster config as
leader-election config, and identical scheme, metrics, port, probe address
and leader-election flag. -/
theorem c3_manager_options_uniform (flags : Flags) (rc : RestConfig) (env0 : Env) (w : World)
    (mgr : Manager) (h : (runMain flags rc env0 w).mgr = some mgr) :
    mgr.opts = mkOptions flags rc
    ∧ mgr.opts.leaderElectionID = "f3d4c01a.redhat.com"
    ∧ mgr.opts.leaderElectionConfig = rc := by
  cases hk : w.kcpPresent with
  | false =>
    cases hm : w.standardMgrErr with
    | some e =>
      rw [runMain_standalone_fail flags rc env0 w e hk hm] at h
      simp at h
    | none =>
      rw [runMain_standalone_ok flags rc env0 w hk hm, defaultsStage_mgr] at h
      injection h with h2
      subst h2
      exact ⟨rfl, rfl, rfl⟩
  | true =>
    cases hl : w.locatorResult with
    | error e =>
      rw [runMain_kcp_locerr flags rc env0 w e hk hl] at h
      simp at h
    | ok cfg =>
      cases hm : w.clusterAwareMgrErr with
      | some e2 =>
        rw [runMain_kcp_res_fail flags rc env0 w cfg e2 hk hl hm] at h
        simp at h
      | none =>
        rw [runMain_kcp_res_ok flags rc env0 w cfg hk hl hm, defaultsStage_mgr] at h
        injection h with h2
        subst h2
        exact ⟨rfl, rfl, rfl⟩

/-- C3 witness: the standalone manager of a concrete run carries the uniform
options. -/
theorem c3_witness :
    (Manager.standard baseConfig (mkOptions stdFlags baseConfig)).opts
        = mkOptions stdFlags baseConfig
    ∧ (Manager.standard baseConfig (mkOptions stdFlags baseConfig)).opts.leaderElectionID
        = "f3d4c01a.redhat.com"
    ∧ (Manager.standard baseConfig (mkOptions stdFlags baseConfig)).opts.leaderElectionConfig
        = baseConfig :=
  c3_manager_options_uniform stdFlags baseConfig emptyEnv okWorld
    (Manager.standard baseConfig (mkOptions stdFlags baseConfig)) (by decide)

/-- C4: when the multi-tenant API group is absent the Workspace Locator is
never invoked and any manager constructed is the standard manager built from
the base cluster config and the uniform options. -/
theorem c4_standalone_no_locator (flags : Flags) (rc : RestConfig) (env0 : Env) (w : World)
    (hk : w.kcpPresent = false) :
    (∀ n, Event.invokeLocator n ∉ (runMain flags rc env0 w).trace)
    ∧ (∀ mgr, (runMain flags rc env0 w).mgr = some mgr
        → mgr = Manager.standard rc (mkOptions flags rc)) := by
  cases hm : w.standardMgrErr with
  | some e =>
    rw [runMain_standalone_fail flags rc env0 w e hk hm]
    constructor
    · intro n
      simp
    · intro mgr h
      simp at h
  | none =>
    rw [runMain_standalone_ok flags rc env0 w hk hm]
    constructor
    · intro n hn
      have := defaultsStage_mem_locator env0 w _ _ n hn
      simp at this
    · intro mgr h
      rw [defaultsStage_mgr] at h
      exact (Option.some.inj h).symm

/-- C4 witness: the standalone guarantee at a concrete run. -/
theorem c4_witness :
    (∀ n, Event.invokeLocator n ∉ (runMain stdFlags baseConfig emptyEnv okWorld).trace)
    ∧ (∀ mgr, (runMain stdFlags baseConfig emptyEnv okWorld).mgr = some mgr
        → mgr = Manager.standard baseConfig (mkOptions stdFlags baseConfig)) :=
  c4_standalone_no_locator stdFlags baseConfig emptyEnv okWorld rfl

/-- C5: webhook registration is performed exactly when `ENABLE_WEBHOOKS`
differs from the literal `"false"` (unset reads as the empty string, hence
enabled); when it equals `"false"` the webhook block is a no-op and the
sequencer proceeds from controller registration directly to the probe
registrations. -/
theorem c5_webhooks_iff_enabled (mgr : Manager) (env : Env) (w : World) (tr : List Event)
    (htr : ∀ n, Event.registerWebhook n ∉ tr) :
    ((∃ n, Event.registerWebhook n ∈ (webhooksStage mgr env w tr).trace)
        ↔ getenv env "ENABLE_WEBHOOKS" ≠ "false")
    ∧ (getenv env "ENABLE_WEBHOOKS" = "false"
        → webhooksStage mgr env w tr = probesStage mgr env w tr) := by
  constructor
  · constructor
    · rintro ⟨n, hn⟩ hc
      rw [webhooksStage_disabled mgr env w tr hc] at hn
      exact htr n (probesStage_mem_webhook mgr env w tr n hn)
    · intro hc
      refine ⟨"Release", ?_⟩
      cases h1 : w.releaseWebhookErr with
      | some e =>
        rw [webhooksStage_release_fail mgr env w tr e hc h1]
        simp
      | none =>
        cases h2 : w.releasePlanAdmissionWebhookErr with
        | some e =>
          rw [webhooksStage_rpa_fail mgr env w tr e hc h1 h2]
          simp
        | none =>
          cases h3 : w.releasePlanWebhookErr with
          | some e =>
            rw [webhooksStage_rp_fail mgr env w tr e hc h1 h2 h3]
            simp
          | none =>
            rw [webhooksStage_ok mgr env w tr hc h1 h2 h3]
            exact probesStage_mem_lift mgr env w _ _ (by simp)
  · exact webhooksStage_disabled mgr env w tr

/-- C5 witness: with an unset environment the webhooks are registered, and
the equivalence holds at the concrete run. -/
theorem c5_witness :
    ((∃ n, Event.registerWebhook n ∈ (webhooksStage stdManager emptyEnv okWorld []).trace)
        ↔ getenv emptyEnv "ENABLE_WEBHOOKS" ≠ "false")
    ∧ (getenv emptyEnv "ENABLE_WEBHOOKS" = "false"
        → webhooksStage stdManager emptyEnv okWorld [] = probesStage stdManager emptyEnv okWorld []) :=
  c5_webhooks_iff_enabled stdManager emptyEnv okWorld [] (by simp)

/-- C6: after the default-application step of a run whose `Setenv` calls
succeed, an unset `DEFAULT_RELEASE_PVC` reads exactly `"release-pvc"` and an
unset `DEFAULT_RELEASE_WORKSPACE_NAME` reads exactly `"release-workspace"`,
while a non-empty pre-set value for either key is left unchanged. -/
theorem c6_defaults_applied (env0 : Env) (w : World) (mgr : Manager) (tr : List Event)
    (hp : w.setenvErr "DEFAULT_RELEASE_PVC" = none)
    (hw2 : w.setenvErr "DEFAULT_RELEASE_WORKSPACE_NAME" = none) :
    (env0 "DEFAULT_RELEASE_PVC" = none →
      getenv (defaultsStage env0 w mgr tr).env "DEFAULT_RELEASE_PVC" = "release-pvc")
    ∧ (env0 "DEFAULT_RELEASE_WORKSPACE_NAME" = none →
      getenv (defaultsStage env0 w mgr tr).env "DEFAULT_RELEASE_WORKSPACE_NAME"
        = "release-workspace")
    ∧ (∀ v, v ≠ "" → env0 "DEFAULT_RELEASE_PVC" = some v →
      getenv (defaultsStage env0 w mgr tr).env "DEFAULT_RELEASE_PVC" = v)
    ∧ (∀ v, v ≠ "" → env0 "DEFAULT_RELEASE_WORKSPACE_NAME" = some v →
      getenv (defaultsStage env0 w mgr tr).env "DEFAULT_RELEASE_WORKSPACE_NAME" = v) := by
  rw [defaultsStage_env env0 w mgr tr hp hw2]
  refine ⟨?_, ?_, ?_, ?_⟩
  · intro h0
    rw [getenv_applyDefault_ne _ _ _ _ (by decide), getenv_applyDefault_self]
    have h2 : getenv env0 "DEFAULT_RELEASE_PVC" = "" := by simp [getenv, h0]
    rw [h2]
    simp
  · intro h0
    rw [getenv_applyDefault_self, getenv_applyDefault_ne _ _ _ _ (by decide)]
    have h2 : getenv env0 "DEFAULT_RELEASE_WORKSPACE_NAME" = "" := by simp [getenv, h0]
    rw [h2]
    simp
  · intro v hv h0
    rw [getenv_applyDefault_ne _ _ _ _ (by decide), getenv_applyDefault_self]
    have h2 : getenv env0 "DEFAULT_RELEASE_PVC" = v := by simp [getenv, h0]
    rw [h2, if_neg hv]
  · intro v hv h0
    rw [getenv_applyDefault_self, getenv_applyDefault_ne _ _ _ _ (by decide)]
    have h2 : getenv env0 "DEFAULT_RELEASE_WORKSPACE_NAME" = v := by simp [getenv, h0]
    rw [h2, if_neg hv]

/-- C6 witness: at the all-unset environment, both defaults hold their
fallback values after the step. -/
theorem c6_witness :
    getenv (defaultsStage emptyEnv okWorld stdManager []).env "DEFAULT_RELEASE_PVC"
        = "release-pvc"
    ∧ getenv (defaultsStage emptyEnv okWorld stdManager []).env "DEFAULT_RELEASE_WORKSPACE_NAME"
        = "release-workspace" :=
  ⟨(c6_defaults_applied emptyEnv okWorld stdManager [] rfl rfl).1 rfl,
   (c6_defaults_applied emptyEnv okWorld stdManager [] rfl rfl).2.1 rfl⟩

/-- C7: with webhooks enabled, the three webhooks register in the fixed order
Release, ReleasePlanAdmission, ReleasePlan; the first registration error
exits with status 1, registers no later webhook, and never reaches the probe
registrations. -/
theorem c7_webhook_order_fail_fast (mgr : Manager) (env : Env) (w : World) (tr : List Event)
    (hc : getenv env "ENABLE_WEBHOOKS" ≠ "false")
    (hw1 : ∀ n, Event.registerWebhook n ∉ tr) (hh : Event.registerHealthz ∉ tr) :
    (w.releaseWebhookErr = none ∧ w.releasePlanAdmissionWebhookErr = none
        ∧ w.releasePlanWebhookErr = none →
      ∃ s t, (webhooksStage mgr env w tr).trace
          = s ++ [Event.registerWebhook "Release", Event.registerWebhook "ReleasePlanAdmission",
                  Event.registerWebhook "ReleasePlan"] ++ t)
    ∧ (∀ e, w.releaseWebhookErr = some e →
        (webhooksStage mgr env w tr).exitCode = 1
        ∧ Event.registerWebhook "ReleasePlanAdmission" ∉ (webhooksStage mgr env w tr).trace
        ∧ Event.registerWebhook "ReleasePlan" ∉ (webhooksStage mgr env w tr).trace
        ∧ Event.registerHealthz ∉ (webhooksStage mgr env w tr).trace)
    ∧ (∀ e, w.releaseWebhookErr = none → w.releasePlanAdmissionWebhookErr = some e →
        (webhooksStage mgr env w tr).exitCode = 1
        ∧ Event.registerWebhook "ReleasePlan" ∉ (webhooksStage mgr env w tr).trace
        ∧ Event.registerHealthz ∉ (webhooksStage mgr env w tr).trace)
    ∧ (∀ e, w.releaseWebhookErr = none → w.releasePlanAdmissionWebhookErr = none →
        w.releasePlanWebhookErr = some e →
        (webhooksStage mgr env w tr).exitCode = 1
        ∧ Event.registerHealthz ∉ (webhooksStage mgr env w tr).trace) := by
  refine ⟨?_, ?_, ?_, ?_⟩
  · rintro ⟨h1, h2, h3⟩
    rw [webhooksStage_ok mgr env w tr hc h1 h2 h3]
    obtain ⟨suf, hsuf⟩ := probesStage_trace_append mgr env w
      (tr ++ [Event.registerWebhook "Release", Event.registerWebhook "ReleasePlanAdmission",
              Event.registerWebhook "ReleasePlan"])
    refine ⟨tr, suf, ?_⟩
    rw [hsuf]
  · intro e h1
    rw [webhooksStage_release_fail mgr env w tr e hc h1]
    refine ⟨rfl, ?_, ?_, ?_⟩
    · simp [hw1 "ReleasePlanAdmission"]
    · simp [hw1 "ReleasePlan"]
    · simp [hh]
  · intro e h1 h2
    rw [webhooksStage_rpa_fail mgr env w tr e hc h1 h2]
    refine ⟨rfl, ?_, ?_⟩
    · simp [hw1 "ReleasePlan"]
    · simp [hh]
  · intro e h1 h2 h3
    rw [webhooksStage_rp_fail mgr env w tr e hc h1 h2 h3]
    exact ⟨rfl, by simp [hh]⟩

/-- C7 witness: at a concrete successful run the three webhooks appear in
order in the trace. -/
theorem c7_witness :
    ∃ s t, (webhooksStage stdManager emptyEnv okWorld []).trace
        = s ++ [Event.registerWebhook "Release", Event.registerWebhook "ReleasePlanAdmission",
                Event.registerWebhook "ReleasePlan"] ++ t :=
  (c7_webhook_order_fail_fast stdManager emptyEnv okWorld [] (by decide) (by simp) (by simp)).1
    ⟨rfl, rfl, rfl⟩

/-! A stage that returns exit code 0 took no `os.Exit(1)` exit. -/

theorem runStage_code_zero_no_exit (mgr : Manager) (env : Env) (w : World) (tr : List Event)
    (hz : (runStage mgr env w tr).exitCode = 0) (h0 : Event.exit 1 ∉ tr) :
    Event.exit 1 ∉ (runStage mgr env w tr).trace := by
  cases hs : w.startErr with
  | some e =>
    rw [runStage_fail mgr env w tr e hs] at hz
    simp at hz
  | none =>
    rw [runStage_ok mgr env w tr hs]
    simp [h0]

theorem probesStage_code_zero_no_exit (mgr : Manager) (env : Env) (w : World) (tr : List Event)
    (hz : (probesStage mgr env w tr).exitCode = 0) (h0 : Event.exit 1 ∉ tr) :
    Event.exit 1 ∉ (probesStage mgr env w tr).trace := by
  cases hh : w.healthzErr with
  | some e =>
    rw [probesStage_healthz_fail mgr env w tr e hh] at hz
    simp at hz
  | none =>
    cases hr : w.readyzErr with
    | some e =>
      rw [probesStage_readyz_fail mgr env w tr e hh hr] at hz
      simp at hz
    | none =>
      rw [probesStage_ok mgr env w tr hh hr] at hz ⊢
      exact runStage_code_zero_no_exit mgr env w _ hz (by simp [h0])

theorem webhooksStage_code_zero_no_exit (mgr : Manager) (env : Env) (w : World) (tr : List Event)
    (hz : (webhooksStage mgr env w tr).exitCode = 0) (h0 : Event.exit 1 ∉ tr) :
    Event.exit 1 ∉ (webhooksStage mgr env w tr).trace := by
  by_cases hc : getenv env "ENABLE_WEBHOOKS" = "false"
  · rw [webhooksStage_disabled mgr env w tr hc] at hz ⊢
    exact probesStage_code_zero_no_exit mgr env w tr hz h0
  · cases h1 : w.releaseWebhookErr with
    | some e =>
      rw [webhooksStage_release_fail mgr env w tr e hc h1] at hz
      simp at hz
    | none =>
      cases h2 : w.releasePlanAdmissionWebhookErr with
      | some e =>
        rw [webhooksStage_rpa_fail mgr env w tr e hc h1 h2] at hz
        simp at hz
      | none =>
        cases h3 : w.releasePlanWebhookErr with
        | some e =>
          rw [webhooksStage_rp_fail mgr env w tr e hc h1 h2 h3] at hz
          simp at hz
        | none =>
          rw [webhooksStage_ok mgr env w tr hc h1 h2 h3] at hz ⊢
          exact probesStage_code_zero_no_exit mgr env w _ hz (by simp [h0])

theorem controllersStage_code_zero_no_exit (mgr : Manager) (env : Env) (w : World)
    (tr : List Event) (hz : (controllersStage mgr env w tr).exitCode = 0)
    (h0 : Event.exit 1 ∉ tr) :
    Event.exit 1 ∉ (controllersStage mgr env w tr).trace := by
  cases hc : w.setupControllersErr with
  | some e =>
    rw [controllersStage_fail mgr env w tr e hc] at hz
    simp at hz
  | none =>
    rw [controllersStage_ok mgr env w tr hc] at hz ⊢
    exact webhooksStage_code_zero_no_exit mgr env w _ hz (by simp [h0])

theorem workspaceDefaultStage_code_zero_no_exit (env : Env) (w : World) (mgr : Manager)
    (tr : List Event) (hz : (workspaceDefaultStage env w mgr tr).exitCode = 0)
    (h0 : Event.exit 1 ∉ tr) :
    Event.exit 1 ∉ (workspaceDefaultStage env w mgr tr).trace := by
  by_cases hc : getenv env "DEFAULT_RELEASE_WORKSPACE_NAME" = ""
  · cases hs : w.setenvErr "DEFAULT_RELEASE_WORKSPACE_NAME" with
    | some e =>
      rw [workspaceDefaultStage_set_fail env w mgr tr e hc hs] at hz
      simp at hz
    | none =>
      rw [workspaceDefaultStage_set_ok env w mgr tr hc hs] at hz ⊢
      exact controllersStage_code_zero_no_exit mgr _ w _ hz (by simp [h0])
  · rw [workspaceDefaultStage_preset env w mgr tr hc] at hz ⊢
    exact controllersStage_code_zero_no_exit mgr env w tr hz h0

theorem defaultsStage_code_zero_no_exit (env : Env) (w : World) (mgr : Manager)
    (tr : List Event) (hz : (defaultsStage env w mgr tr).exitCode = 0)
    (h0 : Event.exit 1 ∉ tr) :
    Event.exit 1 ∉ (defaultsStage env w mgr tr).trace := by
  by_cases hc : getenv env "DEFAULT_RELEASE_PVC" = ""
  · cases hs : w.setenvErr "DEFAULT_RELEASE_PVC" with
    | some e =>
      rw [defaultsStage_set_fail env w mgr tr e hc hs] at hz
      simp at hz
    | none =>
      rw [defaultsStage_set_ok env w mgr tr hc hs] at hz ⊢
      exact workspaceDefaultStage_code_zero_no_exit _ w mgr _ hz (by simp [h0])
  · rw [defaultsStage_preset env w mgr tr hc] at hz ⊢
    exact workspaceDefaultStage_code_zero_no_exit env w mgr tr hz h0

/-- C8: the process exits with status 0 exactly when the run loop was entered
and returned without error; every fatal condition of the claim's enumeration
is an `os.Exit(1)` site (modelled by the `exit 1` event), and whenever one is
taken the exit status is 1 with the originating error logged immediately
before the exit — conversely, status 1 arises only from those sites.  (The
missing-exit slip on the resolution-error path, C1's subject, terminates by
runtime panic with status 2, outside the claim's enumeration.) -/
theorem c8_exit_codes (flags : Flags) (rc : RestConfig) (env0 : Env) (w : World) :
    ((runMain flags rc env0 w).exitCode = 0
        ↔ (Event.startManager ∈ (runMain flags rc env0 w).trace ∧ w.startErr = none))
    ∧ (Event.exit 1 ∈ (runMain flags rc env0 w).trace
        → (runMain flags rc env0 w).exitCode = 1
          ∧ ∃ pre e, (runMain flags rc env0 w).trace = pre ++ [Event.logError e, Event.exit 1])
    ∧ ((runMain flags rc env0 w).exitCode = 1
        → Event.exit 1 ∈ (runMain flags rc env0 w).trace) := by
  cases hk : w.kcpPresent with
  | false =>
    cases hm : w.standardMgrErr with
    | some e =>
      rw [runMain_standalone_fail flags rc env0 w e hk hm]
      refine ⟨by simp, ?_, ?_⟩
      · intro _
        exact ⟨rfl, [Event.detectKcp false, Event.buildStandardManager], e, by simp⟩
      · intro _
        simp
    | none =>
      rw [runMain_standalone_ok flags rc env0 w hk hm]
      refine ⟨defaultsStage_code_zero env0 w _ _ (by simp), ?_, ?_⟩
      · intro hmem
        by_cases hz : (defaultsStage env0 w (Manager.standard rc (mkOptions flags rc))
            [Event.detectKcp false, Event.buildStandardManager]).exitCode = 0
        · exact absurd hmem (defaultsStage_code_zero_no_exit env0 w _ _ hz (by simp))
        · exact defaultsStage_fatal env0 w _ _ hz
      · intro h1
        obtain ⟨_, pre, e, heq⟩ := defaultsStage_fatal env0 w _ _ (by rw [h1]; exact one_ne_zero)
        rw [heq]
        simp
  | true =>
    cases hl : w.locatorResult with
    | error e =>
      rw [runMain_kcp_locerr flags rc env0 w e hk hl]
      refine ⟨by simp, ?_, ?_⟩
      · intro hmem
        simp at hmem
      · intro h1
        exact absurd h1 (by simp)
    | ok cfg =>
      cases hm : w.clusterAwareMgrErr with
      | some e2 =>
        rw [runMain_kcp_res_fail flags rc env0 w cfg e2 hk hl hm]
        refine ⟨by simp, ?_, ?_⟩
        · intro _
          exact ⟨rfl, [Event.detectKcp true, Event.invokeLocator flags.apiExportName,
            Event.buildClusterAwareManager], e2, by simp⟩
        · intro _
          simp
      | none =>
        rw [runMain_kcp_res_ok flags rc env0 w cfg hk hl hm]
        refine ⟨defaultsStage_code_zero env0 w _ _ (by simp), ?_, ?_⟩
        · intro hmem
          by_cases hz : (defaultsStage env0 w (Manager.clusterAware (some cfg) (mkOptions flags rc))
              [Event.detectKcp true, Event.invokeLocator flags.apiExportName,
               Event.buildClusterAwareManager]).exitCode = 0
          · exact absurd hmem (defaultsStage_code_zero_no_exit env0 w _ _ hz (by simp))
          · exact defaultsStage_fatal env0 w _ _ hz
        · intro h1
          obtain ⟨_, pre, e, heq⟩ :=
            defaultsStage_fatal env0 w _ _ (by rw [h1]; exact one_ne_zero)
          rw [heq]
          simp

/-- C8 witness: a run whose manager loop reports an error exits with status 1
after the error is logged. -/
theorem c8_witness :
    (runMain stdFlags baseConfig emptyEnv startErrWorld).exitCode = 1
    ∧ ∃ pre e, (runMain stdFlags baseConfig emptyEnv startErrWorld).trace
        = pre ++ [Event.logError e, Event.exit 1] :=
  (c8_exit_codes stdFlags baseConfig emptyEnv startErrWorld).2.1 (by decide)

/-- C9: the Default-Environment Applier is idempotent for every key, value
and starting environment, and after an application with a non-empty fallback
the key reads non-empty, so the second application is a no-op. -/
theorem c9_apply_default_idempotent :
    ∀ (env : Env) (k v : String),
      applyDefault (applyDefault env k v) k v = applyDefault env k v
      ∧ (v ≠ "" → getenv (applyDefault env k v) k ≠ "") := by
  intro env k v
  by_cases h : getenv env k = ""
  · have h1 : applyDefault env k v = setenv env k v := applyDefault_of_empty env k v h
    constructor
    · rw [h1]
      by_cases hv : v = ""
      · subst hv
        have h2 : getenv (setenv env k "") k = "" := getenv_setenv_self env k ""
        rw [applyDefault_of_empty _ _ _ h2, setenv_setenv_self]
      · have h2 : getenv (setenv env k v) k ≠ "" := by
          rw [getenv_setenv_self]
          exact hv
        rw [applyDefault_of_nonempty _ _ _ h2]
    · intro hv
      rw [h1, getenv_setenv_self]
      exact hv
  · have h1 : applyDefault env k v = env := applyDefault_of_nonempty env k v h
    constructor
    · simp only [h1]
    · intro _
      rw [h1]
      exact h

/-- C9 witness: idempotence and non-emptiness at the concrete key, fallback
and empty environment of the program. -/
theorem c9_witness :
    applyDefault (applyDefault emptyEnv "DEFAULT_RELEASE_PVC" "release-pvc")
        "DEFAULT_RELEASE_PVC" "release-pvc"
      = applyDefault emptyEnv "DEFAULT_RELEASE_PVC" "release-pvc"
    ∧ getenv (applyDefault emptyEnv "DEFAULT_RELEASE_PVC" "release-pvc")
        "DEFAULT_RELEASE_PVC" ≠ "" :=
  ⟨(c9_apply_default_idempotent emptyEnv "DEFAULT_RELEASE_PVC" "release-pvc").1,
   (c9_apply_default_idempotent emptyEnv "DEFAULT_RELEASE_PVC" "release-pvc").2 (by decide)⟩

/-- C10: the default-application step reads keys through `os.Getenv`, which
returns the empty string for an unset variable, so a key explicitly set to
the empty string is overwritten with the fixed fallback exactly as an unset
key would be; in general the applier cannot distinguish a key set to the
empty string from an unset one. -/
theorem c10_empty_treated_as_unset (env0 : Env)
    (hp : env0 "DEFAULT_RELEASE_PVC" = some "")
    (hw : env0 "DEFAULT_RELEASE_WORKSPACE_NAME" = some "") :
    getenv (applyDefault env0 "DEFAULT_RELEASE_PVC" "release-pvc") "DEFAULT_RELEASE_PVC"
        = "release-pvc"
    ∧ getenv (applyDefault env0 "DEFAULT_RELEASE_WORKSPACE_NAME" "release-workspace")
        "DEFAULT_RELEASE_WORKSPACE_NAME" = "release-workspace"
    ∧ ∀ (env : Env) (k v : String), env k = some "" →
        applyDefault env k v = applyDefault (fun x => if x = k then none else env x) k v := by
  refine ⟨?_, ?_, ?_⟩
  · have h : getenv env0 "DEFAULT_RELEASE_PVC" = "" := by simp [getenv, hp]
    rw [applyDefault_of_empty _ _ _ h, getenv_setenv_self]
  · have h : getenv env0 "DEFAULT_RELEASE_WORKSPACE_NAME" = "" := by simp [getenv, hw]
    rw [applyDefault_of_empty _ _ _ h, getenv_setenv_self]
  · intro env k v h
    have h1 : getenv env k = "" := by simp [getenv, h]
    have h2 : getenv (fun x => if x = k then none else env x) k = "" := by simp [getenv]
    rw [applyDefault_of_empty _ _ _ h1, applyDefault_of_empty _ _ _ h2]
    funext x
    by_cases hx : x = k <;> simp [setenv, hx]

/-- C10 witness: an environment with both keys explicitly empty ends up with
the fallback values. -/
theorem c10_witness :
    getenv (applyDefault emptyStrEnv "DEFAULT_RELEASE_PVC" "release-pvc")
        "DEFAULT_RELEASE_PVC" = "release-pvc"
    ∧ getenv (applyDefault emptyStrEnv "DEFAULT_RELEASE_WORKSPACE_NAME" "release-workspace")
        "DEFAULT_RELEASE_WORKSPACE_NAME" = "release-workspace" :=
  ⟨(c10_empty_treated_as_unset emptyStrEnv rfl rfl).1,
   (c10_empty_treated_as_unset emptyStrEnv rfl rfl).2.1⟩

end ReleaseService
